import Mathlib

/-!
Verification development for `bcftbx/mock.py` of the htnani/genomics
repository: the mock Illumina sequencer-output generators
`MockIlluminaRun` and `MockIlluminaData`.

Shallow embedding conventions:
* Python strings are Lean `String`s; all character-level operations are
  carried out on the underlying `List Char` so that everything evaluates
  by kernel reduction.
* Filesystem paths are lists of components (`Path`), mirroring
  `os.path.join` on POSIX; the filesystem is the list of paths for which
  `mkdir`/`open(...,'wb+')` was invoked.  File contents are irrelevant to
  the properties considered here (all created files are placeholders),
  so a file creation is recorded as a `touch` of its path.
* Python exceptions raised by the mocked classes are modelled as
  explicit error values (`Option`-valued constructors, an error
  component in the result of `create`).
-/

namespace BcftbxMock

/-- Does the character list `s` start with the character list `p`?
(Embeds Python `str.startswith`.) -/
def chStarts : List Char → List Char → Bool
  | _, [] => true
  | [], _ :: _ => false
  | c :: cs, p :: ps => c == p && chStarts cs ps

/-- `s.startswith(p)` for strings. -/
def sStartsWith (s p : String) : Bool := chStarts s.data p.data

/-- `s[n:]` for strings (drop the first `n` characters). -/
def sDrop (s : String) (n : Nat) : String := ⟨s.data.drop n⟩

/-- Split a character list on `'_'`; embeds Python `str.split('_')`
(e.g. `"a_b" ↦ ["a","b"]`, `"a_" ↦ ["a",""]`). -/
def splitUnd : List Char → List (List Char)
  | [] => [[]]
  | c :: cs =>
    let r := splitUnd cs
    if c == '_' then [] :: r
    else
      match r with
      | [] => [[c]]
      | t :: ts => (c :: t) :: ts

/-- `s.split('_')[1]`, with `""` when there is no second field.  In the
source this indexing is only reached when the name starts with
`"Project_"`/`"Sample_"`, so a second field always exists. -/
def secondField (s : String) : String := ⟨(splitUnd s.data).getD 1 []⟩

/-- Strict lexicographic comparison of character lists (Python `<` on
strings, for the ASCII names used throughout). -/
def chLt : List Char → List Char → Bool
  | [], [] => false
  | [], _ :: _ => true
  | _ :: _, [] => false
  | a :: as, b :: bs => if a < b then true else if b < a then false else chLt as bs

/-- `a < b` on strings. -/
def sLt (a b : String) : Bool := chLt a.data b.data

/-- Insert a string into a (sorted) list, keeping earlier strictly
smaller elements in front. -/
def insertStr (x : String) : List String → List String
  | [] => [x]
  | y :: ys => if sLt y x then y :: insertStr x ys else x :: y :: ys

/-- Insertion sort of strings; embeds Python `list.sort()` on the string
lists used by `mock.py`. -/
def sortStrs : List String → List String
  | [] => []
  | x :: xs => insertStr x (sortStrs xs)

/-- `"%03d" % n`: decimal digits of `n` padded on the left with zeros to
at least 3 characters. -/
def fmt3 (n : Nat) : String :=
  ⟨List.replicate (3 - (Nat.repr n).data.length) '0' ++ (Nat.repr n).data⟩

/-- `"%04d" % n`. -/
def fmt4 (n : Nat) : String :=
  ⟨List.replicate (4 - (Nat.repr n).data.length) '0' ++ (Nat.repr n).data⟩

/-- Python 2 `xrange(a,b)` as a list. -/
def xrange (a b : Nat) : List Nat := (List.range (b - a)).map (a + ·)

/-- A filesystem path, as its components (the arguments accumulated by
`os.path.join`). -/
abbrev Path := List String

/-- Join path components with `/` (POSIX `os.path.join` on relative
components); used only for the error message of `create`. -/
def joinPath : Path → String
  | [] => ""
  | [c] => c
  | c :: cs => c ++ "/" ++ joinPath cs

/-- One filesystem mutation performed during materialization:
`mkdir` a directory (`bcftbx.utils.mkdir`, which creates the directory
when absent) or `touch` a zero-length placeholder file
(`open(...,'wb+').close()` / a template write). -/
inductive FSOp where
  | mkdir : Path → FSOp
  | touch : Path → FSOp
deriving DecidableEq

/-- The path an operation acts on. -/
def FSOp.path : FSOp → Path
  | .mkdir p => p
  | .touch p => p

/-- Is `d` a path-prefix of `p` (i.e. is `p` equal to `d` or inside the
directory `d`)? -/
def pathUnder : Path → Path → Bool
  | [], _ => true
  | _ :: _, [] => false
  | a :: as, b :: bs => a == b && pathUnder as bs

/-- The filesystem: the list of paths that have been created. -/
abbrev FS := List Path

/-- `os.path.exists(p)`: `p` was created, or something inside `p` was. -/
def osExists (fs : FS) (p : Path) : Bool := fs.any (fun q => pathUnder p q)

/-- Apply one materialization operation to the filesystem. -/
def applyOp (fs : FS) : FSOp → FS
  | .mkdir p => fs ++ [p]
  | .touch p => fs ++ [p]

/-- Apply a list of operations in order. -/
def applyOps (fs : FS) (ops : List FSOp) : FS := ops.foldl applyOp fs

/-- `shutil.rmtree(d)`: delete everything at or below `d`. -/
def rmtree (fs : FS) (d : Path) : FS := fs.filter (fun p => !(pathUnder d p))

/-! ## MockIlluminaData: in-memory model

Translation of the `MockIlluminaData` class.  The private dictionary
`self.__projects` (project key → sample key → fastq list) becomes an
association list that records insertion order; `__created` is the
lifecycle flag. -/

structure MockIlluminaData where
  __name : String
  __package : String
  __unaligned_dir : String
  __paired_end : Bool
  __no_lane_splitting : Bool
  __undetermined_dir : String
  __top_dir : String
  __projects : List (String × List (String × List String))
  __created : Bool
deriving DecidableEq

/-- `MockIlluminaData.__init__`: validates the package (an unknown
package raises, modelled as `none`), forces `no_lane_splitting` to
`False` for casava and fixes `__undetermined_dir`. -/
def mkMockIlluminaData (name package unaligned_dir : String)
    (paired_end no_lane_splitting : Bool) (top_dir : String) :
    Option MockIlluminaData :=
  if package == "casava" || package == "bcl2fastq2" then
    some { __name := name
           __package := package
           __unaligned_dir := unaligned_dir
           __paired_end := paired_end
           __no_lane_splitting :=
             if package == "bcl2fastq2" then no_lane_splitting else false
           __undetermined_dir := "Undetermined_indices"
           __top_dir := top_dir
           __projects := []
           __created := false }
  else none

namespace MockIlluminaData

/-- `self.dirn` as path components (`os.path.join(top_dir, name)`). -/
def dirn (st : MockIlluminaData) : Path := [st.__top_dir, st.__name]

/-- `self.unaligned_dir` as path components. -/
def unalignedPath (st : MockIlluminaData) : Path :=
  [st.__top_dir, st.__name, st.__unaligned_dir]

/-- `MockIlluminaData.__project_dir`: strip a leading `"Project_"`. -/
def projectDirName (project_name : String) : String :=
  if sStartsWith project_name "Project_" then sDrop project_name 8
  else project_name

/-- `MockIlluminaData.__sample_dir`: strip a leading `"Sample_"`. -/
def sampleDirName (sample_name : String) : String :=
  if sStartsWith sample_name "Sample_" then sDrop sample_name 7
  else sample_name

/-- `MockIlluminaData.projects` property: canonical display names of the
stored projects, sorted. -/
def projects (st : MockIlluminaData) : List String :=
  sortStrs (st.__projects.map (fun pr =>
    if sStartsWith pr.1 "Project_" then secondField pr.1 else pr.1))

/-- `MockIlluminaData.samples_in_project` (a missing project raises
`KeyError`, modelled as `none`). -/
def samples_in_project (st : MockIlluminaData) (project_name : String) :
    Option (List String) :=
  (st.__projects.lookup (projectDirName project_name)).map (fun project =>
    sortStrs (project.map (fun sa =>
      if sStartsWith sa.1 "Sample_" then secondField sa.1 else sa.1)))

/-- `MockIlluminaData.fastqs_in_sample` (missing keys raise `KeyError`,
modelled as `none`). -/
def fastqs_in_sample (st : MockIlluminaData) (project_name sample_name : String) :
    Option (List String) :=
  (st.__projects.lookup (projectDirName project_name)).bind (fun project =>
    project.lookup (sampleDirName sample_name))

/-- `MockIlluminaData.add_project`. -/
def add_project (st : MockIlluminaData) (project_name : String) :
    MockIlluminaData :=
  let pd := projectDirName project_name
  if (st.__projects.lookup pd).isSome then st
  else { st with __projects := st.__projects ++ [(pd, [])] }

/-- `MockIlluminaData.add_sample`. -/
def add_sample (st : MockIlluminaData) (project_name sample_name : String) :
    MockIlluminaData :=
  let st1 := st.add_project project_name
  let pd := projectDirName project_name
  let sd := sampleDirName sample_name
  { st1 with __projects := st1.__projects.map (fun pr =>
      if pr.1 == pd then
        (pr.1, if (pr.2.lookup sd).isSome then pr.2 else pr.2 ++ [(sd, [])])
      else pr) }

/-- `MockIlluminaData.add_fastq`: append the fastq to the sample's list
and re-sort the list. -/
def add_fastq (st : MockIlluminaData) (project_name sample_name fastq : String) :
    MockIlluminaData :=
  let st1 := st.add_sample project_name sample_name
  let pd := projectDirName project_name
  let sd := sampleDirName sample_name
  { st1 with __projects := st1.__projects.map (fun pr =>
      if pr.1 == pd then
        (pr.1, pr.2.map (fun sa =>
          if sa.1 == sd then (sa.1, sortStrs (sa.2 ++ [fastq])) else sa))
      else pr) }

/-- `MockIlluminaData.add_fastq_batch`.  `lanes` may be Python `None`
(`Option.none`); iterating `None` in the lane-splitting branch raises a
`TypeError`, modelled by returning `none`. -/
def add_fastq_batch (st : MockIlluminaData)
    (project_name sample_name fastq_base fastq_ext : String)
    (lanes : Option (List Nat)) : Option MockIlluminaData :=
  let reads : List Nat := if st.__paired_end then [1, 2] else [1]
  if st.__no_lane_splitting then
    -- Replicate output from bcl2fastq --no-lane-splitting
    some (reads.foldl (fun s read =>
      s.add_fastq project_name sample_name
        (fastq_base ++ "_R" ++ Nat.repr read ++ "_001." ++ fastq_ext)) st)
  else
    -- Include explicit lane information
    match lanes with
    | none => none
    | some ls =>
      some (ls.foldl (fun s lane =>
        reads.foldl (fun s read =>
          s.add_fastq project_name sample_name
            (fastq_base ++ "_L" ++ fmt3 lane ++ "_R" ++ Nat.repr read
              ++ "_001." ++ fastq_ext)) s) st)

/-- `MockIlluminaData.add_undetermined`.  In the lane-splitting branch
the fastq base name depends on the package; the constructor admits
exactly `'casava'` and `'bcl2fastq2'`, and the source's `elif` covers
the latter. -/
def add_undetermined (st : MockIlluminaData) (lanes : Option (List Nat)) :
    Option MockIlluminaData :=
  if st.__no_lane_splitting then
    let sample_name := "undetermined"
    let fastq_base := "Undetermined_S0"
    let s1 := st.add_sample st.__undetermined_dir sample_name
    s1.add_fastq_batch st.__undetermined_dir sample_name fastq_base
      "fastq.gz" none
  else
    match lanes with
    | none => none
    | some ls =>
      ls.foldl (fun acc lane =>
        acc.bind (fun s =>
          let sample_name := "lane" ++ Nat.repr lane
          let fastq_base :=
            if s.__package == "casava" then
              "lane" ++ Nat.repr lane ++ "_Undetermined"
            else "Undetermined_S0"
          let s1 := s.add_sample s.__undetermined_dir sample_name
          s1.add_fastq_batch s.__undetermined_dir sample_name fastq_base
            "fastq.gz" (some [lane]))) (some st)

end MockIlluminaData

/-! ## Fastq filename parsing (spec-modelled)

`_populate_bcl2fastq2` calls `IlluminaFastq(fastq).sample_name`, imported
from `bcftbx.IlluminaData`, a module that is not part of this repository
snapshot. -/

/-- Is a filename token an index block (`S` followed by digits)? -/
def isIndexTok (t : List Char) : Bool :=
  match t with
  | 'S' :: rest => !rest.isEmpty && rest.all (fun c => c.isDigit)
  | _ => false

/-- Is a filename token a lane block (`L` followed by three digits)? -/
def isLaneTok (t : List Char) : Bool :=
  match t with
  | 'L' :: rest => rest.length == 3 && rest.all (fun c => c.isDigit)
  | _ => false

/-- The tokens before the first lane/index block. -/
def toksBeforeBlock : List (List Char) → List (List Char)
  | [] => []
  | t :: ts =>
    if isIndexTok t || isLaneTok t then []
    else t :: toksBeforeBlock ts

/-- Re-join tokens with `'_'`. -/
def joinUnd : List (List Char) → List Char
  | [] => []
  | [t] => t
  | t :: ts => t ++ '_' :: joinUnd ts

/-- Modelled from the spec: `IlluminaFastq(fastq).sample_name`, whose
implementation (`bcftbx.IlluminaData.IlluminaFastq`) is missing from the
repository snapshot.  Per the spec, the parsed sample token is the part
of the filename directly preceding the lane/index block: the extension
is removed and the underscore-separated tokens before the first
`S<digits>` or `L<3 digits>` token are re-joined. -/
def illuminaFastqSampleName (fastq : String) : String :=
  ⟨joinUnd (toksBeforeBlock (splitUnd (fastq.data.takeWhile (fun c => !(c == '.')))))⟩

namespace MockIlluminaData

/-! ## MockIlluminaData: materialization -/

/-- `MockIlluminaData._populate_casava` as the list of filesystem
operations it performs. -/
def populate_casava_ops (st : MockIlluminaData) : List FSOp :=
  st.__projects.flatMap (fun pr =>
    let project_dirn :=
      if pr.1 == st.__undetermined_dir then st.unalignedPath ++ [pr.1]
      else st.unalignedPath ++ ["Project_" ++ pr.1]
    FSOp.mkdir project_dirn ::
    pr.2.flatMap (fun sa =>
      let sample_dirn := project_dirn ++ ["Sample_" ++ sa.1]
      FSOp.mkdir sample_dirn ::
      sa.2.map (fun fq => FSOp.touch (sample_dirn ++ [fq]))))

/-- `MockIlluminaData._populate_bcl2fastq2` as the list of filesystem
operations it performs. -/
def populate_bcl2fastq2_ops (st : MockIlluminaData) : List FSOp :=
  st.__projects.flatMap (fun pr =>
    let project_dirn :=
      if pr.1 == st.__undetermined_dir then st.unalignedPath
      else st.unalignedPath ++ [pr.1]
    FSOp.mkdir project_dirn ::
    pr.2.flatMap (fun sa =>
      sa.2.flatMap (fun fq =>
        let fq_sample_name := illuminaFastqSampleName fq
        if fq_sample_name != sa.1 && fq_sample_name != "Undetermined" then
          -- Create an intermediate directory
          let sample_dirn := project_dirn ++ [sa.1]
          [FSOp.mkdir sample_dirn, FSOp.touch (sample_dirn ++ [fq])]
        else
          [FSOp.touch (project_dirn ++ [fq])])))

/-- The full operation list of a successful `MockIlluminaData.create`:
the top-level directory, the unaligned directory, then the
package-specific population. -/
def createOps (st : MockIlluminaData) : List FSOp :=
  FSOp.mkdir st.dirn :: FSOp.mkdir st.unalignedPath ::
    (if st.__package == "casava" then st.populate_casava_ops
     else if st.__package == "bcl2fastq2" then st.populate_bcl2fastq2_ops
     else [])

/-- `MockIlluminaData.create`.  The result is the updated object, the
updated filesystem, and the `OSError` message when the top-level
directory already exists (in which case the method raises before
mutating anything). -/
def create (st : MockIlluminaData) (fs : FS) :
    MockIlluminaData × FS × Option String :=
  if osExists fs st.dirn then
    (st, fs, some (joinPath st.dirn ++ " already exists"))
  else
    ({ st with __created := true }, applyOps fs st.createOps, none)

/-- `MockIlluminaData.remove`: recursive delete of the created tree,
gated by the `__created` flag. -/
def remove (st : MockIlluminaData) (fs : FS) : MockIlluminaData × FS :=
  if st.__created then ({ st with __created := false }, rmtree fs st.dirn)
  else (st, fs)

end MockIlluminaData

/-! ## MockIlluminaRun -/

structure MockIlluminaRun where
  _name : String
  _platform : String
  _top_dir : String
  _created : Bool
deriving DecidableEq

/-- `MockIlluminaRun.__init__`: an unrecognised platform raises,
modelled as `none`. -/
def mkMockIlluminaRun (name platform top_dir : String) :
    Option MockIlluminaRun :=
  if platform == "miseq" || platform == "hiseq" || platform == "nextseq" then
    some { _name := name, _platform := platform, _top_dir := top_dir,
           _created := false }
  else none

namespace MockIlluminaRun

/-- `self.dirn` as path components. -/
def dirn (r : MockIlluminaRun) : Path := [r._top_dir, r._name]

/-- `MockIlluminaRun._path`: a path under the run directory. -/
def rpath (r : MockIlluminaRun) (dirs : Path) : Path := r.dirn ++ dirs

/-- The per-platform operations of `_create_miseq`/`_create_hiseq`/
`_create_nextseq`, as (is-mkdir, path relative to the run directory)
pairs; every operation of those methods goes through `self._path`.
`true` marks a `bcftbx.utils.mkdir`, `false` a file creation. -/
def miseqRelOps : List (Bool × Path) :=
  -- Constants for MISeq: nlanes=1, ntiles=12, ncycles=218, bcl_ext='.bcl'
  [(true, ["Data"]), (true, ["Data", "Intensities"]),
   (true, ["Data", "Intensities", "BaseCalls"])]
  ++ (xrange 1 2).flatMap (fun i =>
    (true, ["Data", "Intensities", "L" ++ fmt3 i]) ::
    (xrange 1101 1113).map (fun j =>
      (false, ["Data", "Intensities", "L" ++ fmt3 i,
               "s_" ++ Nat.repr i ++ "_" ++ Nat.repr j ++ ".locs"]))
    ++ [(true, ["Data", "Intensities", "BaseCalls", "L" ++ fmt3 i])]
    ++ (xrange 1101 1113).flatMap (fun j =>
      [(false, ["Data", "Intensities", "BaseCalls", "L" ++ fmt3 i,
                "s_" ++ Nat.repr i ++ "_" ++ Nat.repr j ++ ".control"]),
       (false, ["Data", "Intensities", "BaseCalls", "L" ++ fmt3 i,
                "s_" ++ Nat.repr i ++ "_" ++ Nat.repr j ++ ".filter"])])
    ++ (xrange 1 219).flatMap (fun k =>
      (true, ["Data", "Intensities", "BaseCalls", "L" ++ fmt3 i,
              "C" ++ Nat.repr k ++ ".1"]) ::
      (xrange 1101 1113).flatMap (fun j =>
        [(false, ["Data", "Intensities", "BaseCalls", "L" ++ fmt3 i,
                  "C" ++ Nat.repr k ++ ".1",
                  "s_" ++ Nat.repr i ++ "_" ++ Nat.repr j ++ "." ++ ".bcl"]),
         (false, ["Data", "Intensities", "BaseCalls", "L" ++ fmt3 i,
                  "C" ++ Nat.repr k ++ ".1",
                  "s_" ++ Nat.repr i ++ "_" ++ Nat.repr j ++ ".stats"])])))
  ++ [(false, ["RunInfo.xml"]),
      (false, ["Data", "Intensities", "BaseCalls", "SampleSheet.csv"]),
      (false, ["Data", "Intensities", "config.xml"]),
      (false, ["Data", "Intensities", "BaseCalls", "config.xml"])]

def hiseqRelOps : List (Bool × Path) :=
  -- Constants for HISeq: nlanes=8, ntiles=12, ncycles=218, bcl_ext='.bcl.gz'
  [(true, ["Data"]), (true, ["Data", "Intensities"]),
   (true, ["Data", "Intensities", "BaseCalls"])]
  ++ (xrange 1 9).flatMap (fun i =>
    (true, ["Data", "Intensities", "L" ++ fmt3 i]) ::
    (xrange 1101 1113).map (fun j =>
      (false, ["Data", "Intensities", "L" ++ fmt3 i,
               "s_" ++ Nat.repr i ++ "_" ++ Nat.repr j ++ ".clocs"]))
    ++ [(true, ["Data", "Intensities", "BaseCalls", "L" ++ fmt3 i])]
    ++ (xrange 1101 1113).flatMap (fun j =>
      [(false, ["Data", "Intensities", "BaseCalls", "L" ++ fmt3 i,
                "s_" ++ Nat.repr i ++ "_" ++ Nat.repr j ++ ".control"]),
       (false, ["Data", "Intensities", "BaseCalls", "L" ++ fmt3 i,
                "s_" ++ Nat.repr i ++ "_" ++ Nat.repr j ++ ".filter"])])
    ++ (xrange 1 219).flatMap (fun k =>
      (true, ["Data", "Intensities", "BaseCalls", "L" ++ fmt3 i,
              "C" ++ Nat.repr k ++ ".1"]) ::
      (xrange 1101 1113).flatMap (fun j =>
        [(false, ["Data", "Intensities", "BaseCalls", "L" ++ fmt3 i,
                  "C" ++ Nat.repr k ++ ".1",
                  "s_" ++ Nat.repr i ++ "_" ++ Nat.repr j ++ "." ++ ".bcl.gz"]),
         (false, ["Data", "Intensities", "BaseCalls", "L" ++ fmt3 i,
                  "C" ++ Nat.repr k ++ ".1",
                  "s_" ++ Nat.repr i ++ "_" ++ Nat.repr j ++ ".stats"])])))
  ++ [(false, ["RunInfo.xml"]),
      (false, ["Data", "Intensities", "BaseCalls", "SampleSheet.csv"]),
      (false, ["Data", "Intensities", "config.xml"]),
      (false, ["Data", "Intensities", "BaseCalls", "config.xml"])]

def nextseqRelOps : List (Bool × Path) :=
  -- Constants for NextSeq: nlanes=4, ntiles=158, bcl_ext='.bcl.bgzf'
  [(true, ["Data"]), (true, ["Data", "Intensities"]),
   (true, ["Data", "Intensities", "BaseCalls"]), (true, ["InterOp"])]
  ++ (xrange 1 5).flatMap (fun i =>
    [(true, ["Data", "Intensities", "L" ++ fmt3 i]),
     (false, ["Data", "Intensities", "L" ++ fmt3 i,
              "s_" ++ Nat.repr i ++ ".locs"]),
     (true, ["Data", "Intensities", "BaseCalls", "L" ++ fmt3 i]),
     (false, ["Data", "Intensities", "BaseCalls", "L" ++ fmt3 i,
              "s_" ++ Nat.repr i ++ ".bci"]),
     (false, ["Data", "Intensities", "BaseCalls", "L" ++ fmt3 i,
              "s_" ++ Nat.repr i ++ ".filter"])]
    ++ (xrange 1 159).flatMap (fun j =>
      [(false, ["Data", "Intensities", "BaseCalls", "L" ++ fmt3 i,
                fmt4 j ++ ".bcl.bgzf"]),
       (false, ["Data", "Intensities", "BaseCalls", "L" ++ fmt3 i,
                fmt4 j ++ ".bcl.bgzf" ++ ".bci"])]))
  ++ [(false, ["RunInfo.xml"])]

/-- The platform-specific relative operations dispatched by `create`. -/
def platRelOps (r : MockIlluminaRun) : List (Bool × Path) :=
  if r._platform == "miseq" then miseqRelOps
  else if r._platform == "hiseq" then hiseqRelOps
  else if r._platform == "nextseq" then nextseqRelOps
  else []

/-- The operations of a successful `MockIlluminaRun.create`: the
top-level `mkdir`, then the platform structure, each path built by
`self._path`. -/
def createOps (r : MockIlluminaRun) : List FSOp :=
  FSOp.mkdir r.dirn ::
    r.platRelOps.map (fun bp =>
      if bp.1 then FSOp.mkdir (r.rpath bp.2) else FSOp.touch (r.rpath bp.2))

/-- `MockIlluminaRun.create`, with the `OSError` message when the run
directory already exists (raised before any mutation). -/
def create (r : MockIlluminaRun) (fs : FS) :
    MockIlluminaRun × FS × Option String :=
  if osExists fs r.dirn then
    (r, fs, some (joinPath r.dirn ++ " already exists"))
  else
    ({ r with _created := true }, applyOps fs r.createOps, none)

/-- `MockIlluminaRun.remove`. -/
def remove (r : MockIlluminaRun) (fs : FS) : MockIlluminaRun × FS :=
  if r._created then ({ r with _created := false }, rmtree fs r.dirn)
  else (r, fs)

end MockIlluminaRun

/-! ## Helper lemmas: strings and canonicalization -/

theorem chStarts_self_append (p r : List Char) : chStarts (p ++ r) p = true := by
  induction p with
  | nil => cases r <;> rfl
  | cons c cs ih => simp [chStarts, ih]

theorem sStartsWith_append (p x : String) :
    sStartsWith (p ++ x) p = true := by
  simp [sStartsWith, String.data_append, chStarts_self_append]

theorem sDrop_append (p x : String) :
    sDrop (p ++ x) p.data.length = x := by
  simp [sDrop, String.data_append]

namespace MockIlluminaData

theorem projectDirName_prepend (x : String) :
    projectDirName ("Project_" ++ x) = x := by
  have hd : sDrop ("Project_" ++ x) 8 = x := sDrop_append "Project_" x
  simp [projectDirName, sStartsWith_append, hd]

theorem sampleDirName_prepend (x : String) :
    sampleDirName ("Sample_" ++ x) = x := by
  have hd : sDrop ("Sample_" ++ x) 7 = x := sDrop_append "Sample_" x
  simp [sampleDirName, sStartsWith_append, hd]

theorem projectDirName_of_bare (x : String)
    (h : sStartsWith x "Project_" = false) : projectDirName x = x := by
  simp [projectDirName, h]

theorem sampleDirName_of_bare (x : String)
    (h : sStartsWith x "Sample_" = false) : sampleDirName x = x := by
  simp [sampleDirName, h]

end MockIlluminaData

/-! ## Helper lemmas: sorting -/

theorem insertStr_perm (x : String) (l : List String) :
    (insertStr x l).Perm (x :: l) := by
  induction l with
  | nil => exact List.Perm.refl _
  | cons y ys ih =>
    by_cases h : sLt y x = true
    · simpa [insertStr, h] using ((ih.cons y).trans (List.Perm.swap x y ys))
    · simp only [insertStr, h]
      exact List.Perm.refl _

theorem sortStrs_perm (l : List String) : (sortStrs l).Perm l := by
  induction l with
  | nil => exact List.Perm.refl _
  | cons x xs ih =>
    exact (insertStr_perm x (sortStrs xs)).trans (ih.cons x)

theorem chLt_asymm (a b : List Char) (h : chLt a b = true) :
    chLt b a = false := by
  induction a generalizing b with
  | nil => cases b <;> simp_all [chLt]
  | cons c cs ih =>
    cases b with
    | nil => simp [chLt] at h
    | cons d ds =>
      simp only [chLt] at h ⊢
      by_cases h1 : c < d
      · have h2 : ¬ d < c := lt_asymm h1
        simp [h1, h2]
      · by_cases h2 : d < c
        · simp [h1, h2] at h
        · simp only [if_neg h1, if_neg h2] at h ⊢
          exact ih ds h

/-- The (non-strict) order used to state sortedness of the lists the
mock returns: `a` does not come strictly after `b`. -/
def strLe (a b : String) : Prop := sLt b a = false

/-- A list of strings is sorted when consecutive elements are in
non-decreasing order. -/
def strSorted (l : List String) : Prop := l.Chain' strLe

theorem insertStr_sorted (x : String) (l : List String)
    (h : strSorted l) : strSorted (insertStr x l) := by
  induction l with
  | nil => exact List.chain'_singleton x
  | cons y ys ih =>
    cases hyx : sLt y x with
    | true =>
      have hys : strSorted ys := (List.chain'_cons'.mp h).2
      have hins := ih hys
      simp only [insertStr, hyx, if_true]
      refine List.chain'_cons'.mpr ⟨?_, hins⟩
      intro z hz
      cases ys with
      | nil =>
        simp [insertStr] at hz
        subst hz
        exact chLt_asymm _ _ hyx
      | cons w ws =>
        cases hwx : sLt w x with
        | true =>
          simp [insertStr, hwx] at hz
          subst hz
          exact (List.chain'_cons.mp h).1
        | false =>
          simp [insertStr, hwx] at hz
          subst hz
          exact chLt_asymm _ _ hyx
    | false =>
      simp only [insertStr, hyx, if_false]
      exact List.chain'_cons.mpr ⟨hyx, h⟩

theorem sortStrs_sorted (l : List String) : strSorted (sortStrs l) := by
  induction l with
  | nil => exact List.chain'_nil
  | cons x xs ih => exact insertStr_sorted x (sortStrs xs) ih

theorem strEta (s : String) : (⟨s.data⟩ : String) = s := by
  obtain ⟨d⟩ := s
  rfl

theorem splitUnd_no_sep (b : List Char)
    (hb : b.all (fun c => !(c == '_')) = true) : splitUnd b = [b] := by
  induction b with
  | nil => rfl
  | cons c cs ih =>
    simp only [List.all_cons, Bool.and_eq_true] at hb
    have hc : (c == '_') = false := by
      cases h : c == '_'
      · rfl
      · rw [h] at hb
        exact absurd hb.1 (by simp)
    simp [splitUnd, hc, ih hb.2]

theorem splitUnd_append_sep (a b : List Char)
    (ha : a.all (fun c => !(c == '_')) = true) :
    splitUnd (a ++ '_' :: b) = a :: splitUnd b := by
  induction a with
  | nil =>
    simp [splitUnd]
  | cons c cs ih =>
    simp only [List.all_cons, Bool.and_eq_true] at ha
    have hc : (c == '_') = false := by
      cases h : c == '_'
      · rfl
      · rw [h] at ha
        exact absurd ha.1 (by simp)
    have hcs := ih ha.2
    simp only [List.cons_append, splitUnd, hc, Bool.false_eq_true, if_false]
    rw [List.append_eq, hcs]

theorem secondField_of_underscore_free (a : List Char) (rr : String)
    (ha : a.all (fun c => !(c == '_')) = true)
    (hrr : rr.data.all (fun c => !(c == '_')) = true) :
    secondField ⟨a ++ '_' :: rr.data⟩ = rr := by
  simp only [secondField, splitUnd_append_sep a rr.data ha,
    splitUnd_no_sep rr.data hrr]
  exact strEta rr

/-! ## Helper lemmas: the filesystem model -/

theorem applyOp_eq (fs : FS) (op : FSOp) : applyOp fs op = fs ++ [op.path] := by
  cases op <;> rfl

theorem applyOps_eq (ops : List FSOp) : ∀ fs : FS,
    applyOps fs ops = fs ++ ops.map FSOp.path := by
  induction ops with
  | nil => intro fs; simp [applyOps]
  | cons op ops ih =>
    intro fs
    have h1 : applyOps fs (op :: ops) = applyOps (applyOp fs op) ops := rfl
    rw [h1, ih, applyOp_eq]
    simp

theorem pathUnder_self_append (d t : Path) : pathUnder d (d ++ t) = true := by
  induction d with
  | nil => cases t <;> rfl
  | cons a as ih => simp [pathUnder, ih]

theorem rmtree_append (fs gs : FS) (d : Path) :
    rmtree (fs ++ gs) d = rmtree fs d ++ rmtree gs d := by
  simp [rmtree, List.filter_append]

theorem rmtree_of_not_exists (fs : FS) (d : Path)
    (h : osExists fs d = false) : rmtree fs d = fs := by
  apply List.filter_eq_self.mpr
  intro p hp
  simp only [Bool.not_eq_true']
  by_contra hc
  have hu : pathUnder d p = true := by
    cases hpu : pathUnder d p
    · exact absurd hpu hc
    · rfl
  have : osExists fs d = true := by
    simp only [osExists, List.any_eq_true]
    exact ⟨p, hp, hu⟩
  rw [this] at h
  exact Bool.noConfusion h

theorem rmtree_all_under (ps : List Path) (d : Path)
    (h : ∀ p ∈ ps, ∃ t, p = d ++ t) : rmtree ps d = [] := by
  apply List.filter_eq_nil_iff.mpr
  intro p hp
  obtain ⟨t, ht⟩ := h p hp
  subst ht
  simp [pathUnder_self_append]

/-! ## Helper lemmas: state transitions of the in-memory tree -/

namespace MockIlluminaData

theorem add_sample_empty (st : MockIlluminaData) (P S : String)
    (h : st.__projects = []) :
    st.add_sample P S =
      { st with __projects := [(projectDirName P, [(sampleDirName S, [])])] } := by
  simp [add_sample, add_project, h, List.lookup]

theorem add_sample_existing (st : MockIlluminaData) (P S pd sd : String)
    (F : List String)
    (hP : projectDirName P = pd) (hS : sampleDirName S = sd)
    (h : st.__projects = [(pd, [(sd, F)])]) :
    st.add_sample P S = st := by
  obtain ⟨n, pkg, ua, pe, nls, und, td, projs, cr⟩ := st
  simp only at h
  subst h
  simp [add_sample, add_project, hP, hS, List.lookup]

theorem add_fastq_single (st : MockIlluminaData) (P S f pd sd : String)
    (F : List String)
    (hP : projectDirName P = pd) (hS : sampleDirName S = sd)
    (h : st.__projects = [(pd, [(sd, F)])]) :
    st.add_fastq P S f =
      { st with __projects := [(pd, [(sd, sortStrs (F ++ [f]))])] } := by
  have hsame := add_sample_existing st P S pd sd F hP hS h
  obtain ⟨n, pkg, ua, pe, nls, und, td, projs, cr⟩ := st
  simp only at h
  subst h
  simp only [add_fastq, hsame, hP, hS]
  simp [List.lookup]

theorem foldl_add_fastq_single (P S pd sd : String)
    (hP : projectDirName P = pd) (hS : sampleDirName S = sd) :
    ∀ (names : List String) (st : MockIlluminaData) (F : List String),
      st.__projects = [(pd, [(sd, F)])] →
      ∃ m, names.foldl (fun acc n => acc.add_fastq P S n) st =
          { st with __projects := [(pd, [(sd, m)])] } ∧ m.Perm (F ++ names) := by
  intro names
  induction names with
  | nil =>
    intro st F h
    refine ⟨F, ?_, by simp⟩
    obtain ⟨n, pkg, ua, pe, nls, und, td, projs, cr⟩ := st
    simp only at h
    subst h
    rfl
  | cons n ns ih =>
    intro st F h
    have hstep := add_fastq_single st P S n pd sd F hP hS h
    obtain ⟨m, hm, hperm⟩ :=
      ih { st with __projects := [(pd, [(sd, sortStrs (F ++ [n]))])] }
        (sortStrs (F ++ [n])) rfl
    refine ⟨m, ?_, ?_⟩
    · rw [List.foldl_cons, hstep, hm]
    · refine hperm.trans ?_
      have h1 : (sortStrs (F ++ [n])).Perm (F ++ [n]) := sortStrs_perm _
      refine (h1.append_right ns).trans ?_
      rw [List.append_assoc]
      exact List.Perm.refl _

/-- The nested lane/read loops of `add_fastq_batch` as a single fold
over the flattened list of generated names. -/
theorem foldl_loops_eq_flat (P S : String) (g : Nat → Nat → String)
    (reads : List Nat) :
    ∀ (ls : List Nat) (st : MockIlluminaData),
      ls.foldl (fun s lane =>
        reads.foldl (fun s read => s.add_fastq P S (g lane read)) s) st =
      (ls.flatMap (fun lane => reads.map (g lane))).foldl
        (fun s n => s.add_fastq P S n) st := by
  intro ls
  induction ls with
  | nil => intro st; rfl
  | cons lane lanes ih =>
    intro st
    rw [List.flatMap_cons, List.foldl_append, List.foldl_cons, ← ih]
    congr 1
    rw [List.foldl_map]

/-- `add_fastq_batch` with lane splitting: the nested loops are the fold
of `add_fastq` over the generated `{base}_L{lane:03d}_R{read}_001.{ext}`
names. -/
theorem batch_lanes_split (st : MockIlluminaData) (P S base ext : String)
    (ls : List Nat) (hnls : st.__no_lane_splitting = false) :
    st.add_fastq_batch P S base ext (some ls) =
      some ((ls.flatMap (fun lane =>
          (if st.__paired_end then [1, 2] else [1]).map (fun read =>
            base ++ "_L" ++ fmt3 lane ++ "_R" ++ Nat.repr read ++ "_001."
              ++ ext))).foldl (fun s n => s.add_fastq P S n) st) := by
  simp only [add_fastq_batch, hnls, Bool.false_eq_true, if_false]
  rw [foldl_loops_eq_flat]

/-- `add_fastq_batch` with `--no-lane-splitting`: the lanes argument is
never inspected and the read loop is the fold of `add_fastq` over the
`{base}_R{read}_001.{ext}` names. -/
theorem batch_no_lane_splitting (st : MockIlluminaData)
    (P S base ext : String) (lanes : Option (List Nat))
    (hnls : st.__no_lane_splitting = true) :
    st.add_fastq_batch P S base ext lanes =
      some (((if st.__paired_end then [1, 2] else [1]).map (fun read =>
          base ++ "_R" ++ Nat.repr read ++ "_001." ++ ext)).foldl
        (fun s n => s.add_fastq P S n) st) := by
  simp only [add_fastq_batch, hnls, if_true]
  rw [List.foldl_map]

end MockIlluminaData

theorem MockIlluminaRun.createOps_under (r : MockIlluminaRun) :
    ∀ op ∈ r.createOps, ∃ t, op.path = r.dirn ++ t := by
  intro op hop
  simp only [createOps, List.mem_cons, List.mem_map] at hop
  rcases hop with h | ⟨bp, _, h⟩
  · refine ⟨[], ?_⟩
    rw [h]
    simp [FSOp.path]
  · refine ⟨bp.2, ?_⟩
    rw [← h]
    cases bp.1 <;> simp [FSOp.path, rpath]

/-! ## Example instances used by scenario parts and witnesses -/

/-- A single-end casava tree (from `MockIlluminaData.__init__`). -/
def exDataCasavaSE : MockIlluminaData :=
  { __name := "130904_PJB_XXXXX", __package := "casava",
    __unaligned_dir := "Unaligned", __paired_end := false,
    __no_lane_splitting := false,
    __undetermined_dir := "Undetermined_indices", __top_dir := "/tmp",
    __projects := [], __created := false }

theorem exDataCasavaSE_from_init :
    mkMockIlluminaData "130904_PJB_XXXXX" "casava" "Unaligned" false false
      "/tmp" = some exDataCasavaSE := by decide

/-- A miseq run (from `MockIlluminaRun.__init__`). -/
def exRunMiseq : MockIlluminaRun :=
  { _name := "151125_AB12345_001_CD256X", _platform := "miseq",
    _top_dir := "/tmp", _created := false }

theorem exRunMiseq_from_init :
    mkMockIlluminaRun "151125_AB12345_001_CD256X" "miseq" "/tmp" =
      some exRunMiseq := by decide

/-! ## Claims -/

/-- C6: for both materializer paths (`MockIlluminaRun.create` and
`MockIlluminaData.create`), calling `create` when the top-level target
directory already exists raises the `OSError` "... already exists" and
performs no mutation beyond the existence check: the object and the
filesystem are returned unchanged (so the existing directory's contents
are untouched, nothing is merged into it) and the created flag keeps its
previous value (in particular it remains `false`). -/
theorem claim_C6_create_on_existing_target
    (r : MockIlluminaRun) (st : MockIlluminaData) (fsR fsD : FS)
    (hR : osExists fsR r.dirn = true) (hD : osExists fsD st.dirn = true) :
    r.create fsR = (r, fsR, some (joinPath r.dirn ++ " already exists")) ∧
    st.create fsD = (st, fsD, some (joinPath st.dirn ++ " already exists")) := by
  constructor
  · simp [MockIlluminaRun.create, hR]
  · simp [MockIlluminaData.create, hD]

theorem claim_C6_witness :
    exRunMiseq.create [["/tmp", "151125_AB12345_001_CD256X"]] =
      (exRunMiseq, [["/tmp", "151125_AB12345_001_CD256X"]],
        some (joinPath exRunMiseq.dirn ++ " already exists")) ∧
    exDataCasavaSE.create [["/tmp", "130904_PJB_XXXXX", "Unaligned"]] =
      (exDataCasavaSE, [["/tmp", "130904_PJB_XXXXX", "Unaligned"]],
        some (joinPath exDataCasavaSE.dirn ++ " already exists")) :=
  claim_C6_create_on_existing_target exRunMiseq exDataCasavaSE
    [["/tmp", "151125_AB12345_001_CD256X"]]
    [["/tmp", "130904_PJB_XXXXX", "Unaligned"]] (by decide) (by decide)

/-- C9: `remove` on an instance that was never successfully
materialized, or that has already been removed, is a no-op gated by the
created flag, for both `MockIlluminaRun` and `MockIlluminaData`: no
deletion is performed and no error is raised; and after any `remove`
a second `remove` changes nothing. -/
theorem claim_C9_remove_noop_when_not_created
    (r : MockIlluminaRun) (st : MockIlluminaData) (fsR fsD : FS)
    (hr : r._created = false) (hs : st.__created = false) :
    r.remove fsR = (r, fsR) ∧ st.remove fsD = (st, fsD) ∧
    (∀ (r2 : MockIlluminaRun) (fs2 : FS),
      ((r2.remove fs2).1).remove (r2.remove fs2).2 = r2.remove fs2) ∧
    (∀ (st2 : MockIlluminaData) (fs2 : FS),
      ((st2.remove fs2).1).remove (st2.remove fs2).2 = st2.remove fs2) := by
  refine ⟨by simp [MockIlluminaRun.remove, hr],
    by simp [MockIlluminaData.remove, hs], ?_, ?_⟩
  · intro r2 fs2
    cases h : r2._created
    · simp [MockIlluminaRun.remove, h]
    · simp [MockIlluminaRun.remove, h]
  · intro st2 fs2
    cases h : st2.__created
    · simp [MockIlluminaData.remove, h]
    · simp [MockIlluminaData.remove, h]

theorem claim_C9_witness :
    exRunMiseq.remove [["/tmp", "x"]] = (exRunMiseq, [["/tmp", "x"]]) ∧
    exDataCasavaSE.remove [] = (exDataCasavaSE, []) ∧
    (∀ (r2 : MockIlluminaRun) (fs2 : FS),
      ((r2.remove fs2).1).remove (r2.remove fs2).2 = r2.remove fs2) ∧
    (∀ (st2 : MockIlluminaData) (fs2 : FS),
      ((st2.remove fs2).1).remove (st2.remove fs2).2 = st2.remove fs2) :=
  claim_C9_remove_noop_when_not_created exRunMiseq exDataCasavaSE
    [["/tmp", "x"]] [] rfl rfl

/-- C7: for every valid platform (`miseq`, `hiseq`, `nextseq`),
`MockIlluminaRun.create` followed immediately by `remove` deletes the
entire materialized run directory: every path created by `create` lies
under `rootPath/name`, the pre-existing filesystem (which `create`
required to hold nothing at or under `rootPath/name`) is restored
exactly, and the created flag is reset. -/
theorem claim_C7_create_remove_roundtrip (r : MockIlluminaRun)
    (_hplat : r._platform = "miseq" ∨ r._platform = "hiseq" ∨
      r._platform = "nextseq")
    (fs0 : FS) (hfree : osExists fs0 r.dirn = false) :
    ((r.create fs0).1).remove (r.create fs0).2.1 =
      ({ r with _created := false }, fs0) ∧
    ∀ p ∈ fs0, pathUnder r.dirn p = false := by
  have hcreate : r.create fs0 =
      ({ r with _created := true }, applyOps fs0 r.createOps, none) := by
    simp [MockIlluminaRun.create, hfree]
  have hfs0 : ∀ p ∈ fs0, pathUnder r.dirn p = false := by
    intro p hp
    by_contra hc
    have hu : pathUnder r.dirn p = true := by
      cases hpu : pathUnder r.dirn p
      · exact absurd hpu hc
      · rfl
    have : osExists fs0 r.dirn = true := by
      simp only [osExists, List.any_eq_true]
      exact ⟨p, hp, hu⟩
    rw [this] at hfree
    exact Bool.noConfusion hfree
  refine ⟨?_, hfs0⟩
  have hunder : ∀ p ∈ r.createOps.map FSOp.path, ∃ t, p = r.dirn ++ t := by
    intro p hp
    rw [List.mem_map] at hp
    obtain ⟨op, hop, hq⟩ := hp
    obtain ⟨t, ht⟩ := r.createOps_under op hop
    exact ⟨t, by rw [← hq, ht]⟩
  have hrm : rmtree (applyOps fs0 r.createOps) r.dirn = fs0 := by
    rw [applyOps_eq, rmtree_append, rmtree_of_not_exists fs0 r.dirn hfree,
      rmtree_all_under _ _ hunder]
    simp
  have hrm2 : rmtree (applyOps fs0 r.createOps) [r._top_dir, r._name] = fs0 := by
    simpa [MockIlluminaRun.dirn] using hrm
  rw [hcreate]
  simp [MockIlluminaRun.remove, MockIlluminaRun.dirn, hrm2]

/-- A paired-end casava tree (from `MockIlluminaData.__init__`). -/
def exDataCasavaPE : MockIlluminaData :=
  { __name := "130904_PJB_XXXXX", __package := "casava",
    __unaligned_dir := "Unaligned", __paired_end := true,
    __no_lane_splitting := false,
    __undetermined_dir := "Undetermined_indices", __top_dir := "/tmp",
    __projects := [], __created := false }

theorem exDataCasavaPE_from_init :
    mkMockIlluminaData "130904_PJB_XXXXX" "casava" "Unaligned" true false
      "/tmp" = some exDataCasavaPE := by decide

/-- The C4 scenario tree: Legacy, paired-end,
`add_fastq_batch("PJB","PJB1","PJB1_GCCAAT",lanes=(1,4,5))`. -/
def exC4data : MockIlluminaData :=
  (exDataCasavaPE.add_fastq_batch "PJB" "PJB1" "PJB1_GCCAAT" "fastq.gz"
    (some [1, 4, 5])).getD exDataCasavaPE

/-- C4: `add_fastq_batch` builds, for every lane in `lanes` and every
read implied by the paired-end flag (reads `[1]` single-end, `[1,2]`
paired-end), the filename `{base}_L{lane:03d}_R{read}_001.{extension}`
when lane splitting is on, and omits the `_L{lane:03d}` token under
no-lane-splitting; in particular on a paired-end Legacy tree,
`add_fastq_batch("PJB","PJB1","PJB1_GCCAAT",lanes=(1,4,5))` adds exactly
the 6 files `PJB1_GCCAAT_L00{1,4,5}_R{1,2}_001.fastq.gz`, materialized
at `Unaligned/Project_PJB/Sample_PJB1/`. -/
theorem claim_C4_add_fastq_batch_names :
    (∀ (st : MockIlluminaData) (P S base ext : String) (ls : List Nat)
      (pd sd : String) (F : List String),
      st.__no_lane_splitting = false →
      MockIlluminaData.projectDirName P = pd →
      MockIlluminaData.sampleDirName S = sd →
      st.__projects = [(pd, [(sd, F)])] →
      ∃ m, st.add_fastq_batch P S base ext (some ls) =
          some { st with __projects := [(pd, [(sd, m)])] } ∧
        m.Perm (F ++ ls.flatMap (fun lane =>
          (if st.__paired_end then [1, 2] else [1]).map (fun read =>
            base ++ "_L" ++ fmt3 lane ++ "_R" ++ Nat.repr read ++ "_001."
              ++ ext)))) ∧
    (∀ (st : MockIlluminaData) (P S base ext : String)
      (lanes : Option (List Nat)) (pd sd : String) (F : List String),
      st.__no_lane_splitting = true →
      MockIlluminaData.projectDirName P = pd →
      MockIlluminaData.sampleDirName S = sd →
      st.__projects = [(pd, [(sd, F)])] →
      ∃ m, st.add_fastq_batch P S base ext lanes =
          some { st with __projects := [(pd, [(sd, m)])] } ∧
        m.Perm (F ++ (if st.__paired_end then [1, 2] else [1]).map
          (fun read => base ++ "_R" ++ Nat.repr read ++ "_001." ++ ext))) ∧
    (exDataCasavaPE.add_fastq_batch "PJB" "PJB1" "PJB1_GCCAAT" "fastq.gz"
        (some [1, 4, 5])).isSome = true ∧
    exC4data.fastqs_in_sample "PJB" "PJB1" =
      some ["PJB1_GCCAAT_L001_R1_001.fastq.gz",
            "PJB1_GCCAAT_L001_R2_001.fastq.gz",
            "PJB1_GCCAAT_L004_R1_001.fastq.gz",
            "PJB1_GCCAAT_L004_R2_001.fastq.gz",
            "PJB1_GCCAAT_L005_R1_001.fastq.gz",
            "PJB1_GCCAAT_L005_R2_001.fastq.gz"] ∧
    exC4data.createOps.map FSOp.path =
      [["/tmp", "130904_PJB_XXXXX"],
       ["/tmp", "130904_PJB_XXXXX", "Unaligned"],
       ["/tmp", "130904_PJB_XXXXX", "Unaligned", "Project_PJB"],
       ["/tmp", "130904_PJB_XXXXX", "Unaligned", "Project_PJB",
        "Sample_PJB1"],
       ["/tmp", "130904_PJB_XXXXX", "Unaligned", "Project_PJB",
        "Sample_PJB1", "PJB1_GCCAAT_L001_R1_001.fastq.gz"],
       ["/tmp", "130904_PJB_XXXXX", "Unaligned", "Project_PJB",
        "Sample_PJB1", "PJB1_GCCAAT_L001_R2_001.fastq.gz"],
       ["/tmp", "130904_PJB_XXXXX", "Unaligned", "Project_PJB",
        "Sample_PJB1", "PJB1_GCCAAT_L004_R1_001.fastq.gz"],
       ["/tmp", "130904_PJB_XXXXX", "Unaligned", "Project_PJB",
        "Sample_PJB1", "PJB1_GCCAAT_L004_R2_001.fastq.gz"],
       ["/tmp", "130904_PJB_XXXXX", "Unaligned", "Project_PJB",
        "Sample_PJB1", "PJB1_GCCAAT_L005_R1_001.fastq.gz"],
       ["/tmp", "130904_PJB_XXXXX", "Unaligned", "Project_PJB",
        "Sample_PJB1", "PJB1_GCCAAT_L005_R2_001.fastq.gz"]] := by
  refine ⟨?_, ?_, by decide, by decide, by decide⟩
  · intro st P S base ext ls pd sd F hnls hP hS hshape
    rw [MockIlluminaData.batch_lanes_split st P S base ext ls hnls]
    obtain ⟨m, hm, hperm⟩ :=
      MockIlluminaData.foldl_add_fastq_single P S pd sd hP hS _ st F hshape
    exact ⟨m, by rw [hm], hperm⟩
  · intro st P S base ext lanes pd sd F hnls hP hS hshape
    rw [MockIlluminaData.batch_no_lane_splitting st P S base ext lanes hnls]
    obtain ⟨m, hm, hperm⟩ :=
      MockIlluminaData.foldl_add_fastq_single P S pd sd hP hS _ st F hshape
    exact ⟨m, by rw [hm], hperm⟩

/-- A casava tree already holding project `PJB` / sample `PJB1`. -/
def exC4wit : MockIlluminaData :=
  { exDataCasavaSE with __projects := [("PJB", [("PJB1", [])])] }

theorem claim_C4_witness :
    exC4wit.__no_lane_splitting = false ∧
    ∃ m, exC4wit.add_fastq_batch "PJB" "PJB1" "PJB1_GCCAAT" "fastq.gz"
        (some [2]) =
        some { exC4wit with __projects := [("PJB", [("PJB1", m)])] } ∧
      m.Perm ([] ++ [2].flatMap (fun lane =>
        (if exC4wit.__paired_end then [1, 2] else [1]).map (fun read =>
          "PJB1_GCCAAT" ++ "_L" ++ fmt3 lane ++ "_R" ++ Nat.repr read
            ++ "_001." ++ "fastq.gz"))) :=
  ⟨rfl, claim_C4_add_fastq_batch_names.1 exC4wit "PJB" "PJB1" "PJB1_GCCAAT"
    "fastq.gz" [2] "PJB" "PJB1" [] rfl (by decide) (by decide) rfl⟩

/-- A paired-end bcl2fastq2 tree with `--no-lane-splitting` (from
`MockIlluminaData.__init__`). -/
def exDataB2NLS : MockIlluminaData :=
  { __name := "160621_NB00001_0001", __package := "bcl2fastq2",
    __unaligned_dir := "Unaligned", __paired_end := true,
    __no_lane_splitting := true,
    __undetermined_dir := "Undetermined_indices", __top_dir := "/tmp",
    __projects := [], __created := false }

theorem exDataB2NLS_from_init :
    mkMockIlluminaData "160621_NB00001_0001" "bcl2fastq2" "Unaligned" true
      true "/tmp" = some exDataB2NLS := by decide

/-- C8: when no-lane-splitting is in effect, batch construction never
inspects the lanes argument (so it never iterates the null lane list),
and produces exactly one fastq per read variant — one file single-end,
two files paired-end, never zero and never one per omitted lane; in
particular `add_undetermined`, which passes `lanes=None`, succeeds and
stores exactly the `Undetermined_S0_R{read}_001.fastq.gz` files. -/
theorem claim_C8_no_lane_splitting_null_lanes :
    (∀ (st : MockIlluminaData) (P S base ext : String)
      (L1 L2 : Option (List Nat)), st.__no_lane_splitting = true →
      st.add_fastq_batch P S base ext L1 =
        st.add_fastq_batch P S base ext L2) ∧
    (∀ (st : MockIlluminaData) (P S base ext : String)
      (lanes : Option (List Nat)) (pd sd : String) (F : List String),
      st.__no_lane_splitting = true →
      MockIlluminaData.projectDirName P = pd →
      MockIlluminaData.sampleDirName S = sd →
      st.__projects = [(pd, [(sd, F)])] →
      ∃ m, st.add_fastq_batch P S base ext lanes =
          some { st with __projects := [(pd, [(sd, m)])] } ∧
        m.Perm (F ++ (if st.__paired_end then [1, 2] else [1]).map
          (fun read => base ++ "_R" ++ Nat.repr read ++ "_001." ++ ext)) ∧
        m.length = F.length + (if st.__paired_end then 2 else 1)) ∧
    (∀ (st : MockIlluminaData) (L : Option (List Nat)),
      st.__no_lane_splitting = true →
      st.__undetermined_dir = "Undetermined_indices" →
      st.__projects = [] →
      st.add_undetermined L = st.add_undetermined none ∧
      ∃ l, (st.add_undetermined L).map (fun st2 =>
          st2.fastqs_in_sample "Undetermined_indices" "undetermined") =
          some (some l) ∧
        l.Perm ((if st.__paired_end then [1, 2] else [1]).map (fun read =>
          "Undetermined_S0" ++ "_R" ++ Nat.repr read ++ "_001."
            ++ "fastq.gz")) ∧
        l.length = (if st.__paired_end then 2 else 1)) := by
  have hlen : ∀ (b : Bool) (f : Nat → String),
      ((if b then [1, 2] else [1]).map f).length = if b then 2 else 1 := by
    intro b f
    cases b <;> simp
  refine ⟨?_, ?_, ?_⟩
  · intro st P S base ext L1 L2 hnls
    rw [MockIlluminaData.batch_no_lane_splitting st P S base ext L1 hnls,
      MockIlluminaData.batch_no_lane_splitting st P S base ext L2 hnls]
  · intro st P S base ext lanes pd sd F hnls hP hS hshape
    rw [MockIlluminaData.batch_no_lane_splitting st P S base ext lanes hnls]
    obtain ⟨m, hm, hperm⟩ :=
      MockIlluminaData.foldl_add_fastq_single P S pd sd hP hS _ st F hshape
    refine ⟨m, by rw [hm], hperm, ?_⟩
    rw [hperm.length_eq]
    rw [List.length_append, hlen]
  · intro st L hnls hund hproj
    have heq : st.add_undetermined L = st.add_undetermined none := by
      simp [MockIlluminaData.add_undetermined, hnls]
    refine ⟨heq, ?_⟩
    have hpdu : MockIlluminaData.projectDirName "Undetermined_indices" =
        "Undetermined_indices" := by decide
    have hsdu : MockIlluminaData.sampleDirName "undetermined" =
        "undetermined" := by decide
    have hpd2 : MockIlluminaData.projectDirName st.__undetermined_dir =
        "Undetermined_indices" := by rw [hund]; exact hpdu
    have hs1 := st.add_sample_empty st.__undetermined_dir "undetermined" hproj
    rw [hpd2, hsdu] at hs1
    have hun : st.add_undetermined L =
        (st.add_sample st.__undetermined_dir "undetermined").add_fastq_batch
          st.__undetermined_dir "undetermined" "Undetermined_S0" "fastq.gz"
          none := by
      simp [MockIlluminaData.add_undetermined, hnls]
    obtain ⟨m, hm, hperm⟩ :=
      MockIlluminaData.foldl_add_fastq_single st.__undetermined_dir
        "undetermined" "Undetermined_indices" "undetermined"
        hpd2 hsdu
        ((if st.__paired_end then [1, 2] else [1]).map (fun read =>
          "Undetermined_S0" ++ "_R" ++ Nat.repr read ++ "_001."
            ++ "fastq.gz"))
        (st.add_sample st.__undetermined_dir "undetermined") []
        (by rw [hs1])
    have hbatch := MockIlluminaData.batch_no_lane_splitting
      (st.add_sample st.__undetermined_dir "undetermined")
      st.__undetermined_dir "undetermined" "Undetermined_S0" "fastq.gz"
      none (by rw [hs1]; exact hnls)
    have hpe : (st.add_sample st.__undetermined_dir
        "undetermined").__paired_end = st.__paired_end := by
      rw [hs1]
    refine ⟨m, ?_, by simpa using hperm, ?_⟩
    · rw [hun, hbatch, hpe, hm]
      have hfq : ({ st.add_sample st.__undetermined_dir "undetermined" with
          __projects := [("Undetermined_indices",
            [("undetermined", m)])] } :
            MockIlluminaData).fastqs_in_sample "Undetermined_indices"
          "undetermined" = some m := by
        simp [MockIlluminaData.fastqs_in_sample, hpdu, hsdu, List.lookup]
      simp [hfq]
    · rw [hperm.length_eq]
      simp [hlen]

theorem claim_C8_witness :
    exDataB2NLS.__no_lane_splitting = true ∧
    exDataB2NLS.add_undetermined (some [1, 2]) =
      exDataB2NLS.add_undetermined none ∧
    ∃ l, (exDataB2NLS.add_undetermined (some [1, 2])).map (fun st2 =>
        st2.fastqs_in_sample "Undetermined_indices" "undetermined") =
        some (some l) ∧
      l.Perm ((if exDataB2NLS.__paired_end then [1, 2] else [1]).map
        (fun read => "Undetermined_S0" ++ "_R" ++ Nat.repr read ++ "_001."
          ++ "fastq.gz")) ∧
      l.length = (if exDataB2NLS.__paired_end then 2 else 1) :=
  ⟨rfl,
    (claim_C8_no_lane_splitting_null_lanes.2.2 exDataB2NLS (some [1, 2])
      rfl rfl rfl).1,
    (claim_C8_no_lane_splitting_null_lanes.2.2 exDataB2NLS (some [1, 2])
      rfl rfl rfl).2⟩

/-- A single-end bcl2fastq2 tree (from `MockIlluminaData.__init__`). -/
def exDataB2 : MockIlluminaData :=
  { __name := "160621_NB00002_0002", __package := "bcl2fastq2",
    __unaligned_dir := "Unaligned", __paired_end := false,
    __no_lane_splitting := false,
    __undetermined_dir := "Undetermined_indices", __top_dir := "/tmp",
    __projects := [], __created := false }

theorem exDataB2_from_init :
    mkMockIlluminaData "160621_NB00002_0002" "bcl2fastq2" "Unaligned" false
      false "/tmp" = some exDataB2 := by decide

/-- The C2 scenario tree: Modern,
`add_fastq("PJB","PJB2","PJB2_input_S1_R1_001.fastq.gz")`. -/
def exC2data : MockIlluminaData :=
  exDataB2.add_fastq "PJB" "PJB2" "PJB2_input_S1_R1_001.fastq.gz"

/-- The C2 matched-token comparison tree: the parsed sample token of
`PJB2_S1_R1_001.fastq.gz` equals the sample name `PJB2`. -/
def exC2dataMatch : MockIlluminaData :=
  exDataB2.add_fastq "PJB" "PJB2" "PJB2_S1_R1_001.fastq.gz"

/-- C2: under the Modern (bcl2fastq2) layout, `create` materializes each
ordinary project as a directory named exactly `{name}` under the
unaligned directory, maps the undetermined pseudo-project onto the
unaligned directory itself, and places each fastq directly in the
project directory when its parsed sample token equals the canonical
sample name or the literal `"Undetermined"`, otherwise first creating an
intermediate directory named after the canonical sample; in particular
`add_fastq("PJB","PJB2","PJB2_input_S1_R1_001.fastq.gz")` materializes
to `Unaligned/PJB/PJB2/PJB2_input_S1_R1_001.fastq.gz`.  (The filename
parser `IlluminaFastq.sample_name` is modelled from the spec, its module
being absent from the repository snapshot.) -/
theorem claim_C2_bcl2fastq2_layout :
    (∀ (st : MockIlluminaData) (pd sd f : String),
      st.__package = "bcl2fastq2" →
      st.__projects = [(pd, [(sd, [f])])] →
      (pd == st.__undetermined_dir) = false →
      st.createOps =
        [FSOp.mkdir st.dirn, FSOp.mkdir st.unalignedPath,
         FSOp.mkdir (st.unalignedPath ++ [pd])] ++
        (if illuminaFastqSampleName f == sd ||
            illuminaFastqSampleName f == "Undetermined" then
          [FSOp.touch (st.unalignedPath ++ [pd, f])]
        else
          [FSOp.mkdir (st.unalignedPath ++ [pd, sd]),
           FSOp.touch (st.unalignedPath ++ [pd, sd, f])])) ∧
    (∀ (st : MockIlluminaData) (sd f : String),
      st.__package = "bcl2fastq2" →
      st.__projects = [(st.__undetermined_dir, [(sd, [f])])] →
      st.createOps =
        [FSOp.mkdir st.dirn, FSOp.mkdir st.unalignedPath,
         FSOp.mkdir st.unalignedPath] ++
        (if illuminaFastqSampleName f == sd ||
            illuminaFastqSampleName f == "Undetermined" then
          [FSOp.touch (st.unalignedPath ++ [f])]
        else
          [FSOp.mkdir (st.unalignedPath ++ [sd]),
           FSOp.touch (st.unalignedPath ++ [sd, f])])) ∧
    illuminaFastqSampleName "PJB2_input_S1_R1_001.fastq.gz" =
      "PJB2_input" ∧
    exC2data.createOps.map FSOp.path =
      [["/tmp", "160621_NB00002_0002"],
       ["/tmp", "160621_NB00002_0002", "Unaligned"],
       ["/tmp", "160621_NB00002_0002", "Unaligned", "PJB"],
       ["/tmp", "160621_NB00002_0002", "Unaligned", "PJB", "PJB2"],
       ["/tmp", "160621_NB00002_0002", "Unaligned", "PJB", "PJB2",
        "PJB2_input_S1_R1_001.fastq.gz"]] ∧
    illuminaFastqSampleName "PJB2_S1_R1_001.fastq.gz" = "PJB2" ∧
    exC2dataMatch.createOps.map FSOp.path =
      [["/tmp", "160621_NB00002_0002"],
       ["/tmp", "160621_NB00002_0002", "Unaligned"],
       ["/tmp", "160621_NB00002_0002", "Unaligned", "PJB"],
       ["/tmp", "160621_NB00002_0002", "Unaligned", "PJB",
        "PJB2_S1_R1_001.fastq.gz"]] := by
  refine ⟨?_, ?_, by decide, by decide, by decide, by decide⟩
  · intro st pd sd f hpkg hproj hnotund
    have hc1 : (st.__package == "casava") = false := by rw [hpkg]; rfl
    have hc2 : (st.__package == "bcl2fastq2") = true := by rw [hpkg]; rfl
    have hnd : ¬ pd = st.__undetermined_dir := by simpa using hnotund
    by_cases hA : illuminaFastqSampleName f = sd <;>
      by_cases hB : illuminaFastqSampleName f = "Undetermined" <;>
      simp [MockIlluminaData.createOps,
        MockIlluminaData.populate_bcl2fastq2_ops, hc1, hc2, hproj,
        hnd, hA, hB]
  · intro st sd f hpkg hproj
    have hc1 : (st.__package == "casava") = false := by rw [hpkg]; rfl
    have hc2 : (st.__package == "bcl2fastq2") = true := by rw [hpkg]; rfl
    by_cases hA : illuminaFastqSampleName f = sd <;>
      by_cases hB : illuminaFastqSampleName f = "Undetermined" <;>
      simp [MockIlluminaData.createOps,
        MockIlluminaData.populate_bcl2fastq2_ops, hc1, hc2, hproj, hA, hB]

theorem claim_C2_witness :
    exC2data.__package = "bcl2fastq2" ∧
    exC2data.createOps =
      [FSOp.mkdir exC2data.dirn, FSOp.mkdir exC2data.unalignedPath,
       FSOp.mkdir (exC2data.unalignedPath ++ ["PJB"])] ++
      (if illuminaFastqSampleName "PJB2_input_S1_R1_001.fastq.gz" == "PJB2"
          || illuminaFastqSampleName "PJB2_input_S1_R1_001.fastq.gz" ==
            "Undetermined" then
        [FSOp.touch (exC2data.unalignedPath ++
          ["PJB", "PJB2_input_S1_R1_001.fastq.gz"])]
      else
        [FSOp.mkdir (exC2data.unalignedPath ++ ["PJB", "PJB2"]),
         FSOp.touch (exC2data.unalignedPath ++
          ["PJB", "PJB2", "PJB2_input_S1_R1_001.fastq.gz"])]) :=
  ⟨rfl, claim_C2_bcl2fastq2_layout.1 exC2data "PJB" "PJB2"
    "PJB2_input_S1_R1_001.fastq.gz" rfl (by decide) (by decide)⟩

/-- The C3 scenario: Legacy single-end tree after
`add_undetermined(lanes=(1,2))`. -/
def exC3opt : Option MockIlluminaData :=
  exDataCasavaSE.add_undetermined (some [1, 2])

def exC3data : MockIlluminaData := exC3opt.getD exDataCasavaSE

/-- C3: under the Legacy (casava) layout, `create` materializes each
ordinary project as `Unaligned/Project_{name}`, each sample as a
`Sample_{name}` directory inside it, each fastq as an (empty
placeholder) file directly inside the sample directory, while the
undetermined pseudo-project keeps its literal reserved directory name
`Undetermined_indices` with no `Project_` prefix; the undetermined
scenario with lanes `(1,2)` yields samples `lane1`, `lane2`, each
holding `lane{N}_Undetermined_L00{N}_R1_001.fastq.gz` under that
literal directory. -/
theorem claim_C3_casava_layout :
    (∀ (st : MockIlluminaData) (pd sd f : String),
      st.__package = "casava" →
      st.__projects = [(pd, [(sd, [f])])] →
      st.createOps =
        [FSOp.mkdir st.dirn, FSOp.mkdir st.unalignedPath,
         FSOp.mkdir (st.unalignedPath ++
          [if pd = st.__undetermined_dir then pd else "Project_" ++ pd]),
         FSOp.mkdir (st.unalignedPath ++
          [if pd = st.__undetermined_dir then pd else "Project_" ++ pd,
           "Sample_" ++ sd]),
         FSOp.touch (st.unalignedPath ++
          [if pd = st.__undetermined_dir then pd else "Project_" ++ pd,
           "Sample_" ++ sd, f])]) ∧
    exC3opt.isSome = true ∧
    exC3data.createOps.map FSOp.path =
      [["/tmp", "130904_PJB_XXXXX"],
       ["/tmp", "130904_PJB_XXXXX", "Unaligned"],
       ["/tmp", "130904_PJB_XXXXX", "Unaligned", "Undetermined_indices"],
       ["/tmp", "130904_PJB_XXXXX", "Unaligned", "Undetermined_indices",
        "Sample_lane1"],
       ["/tmp", "130904_PJB_XXXXX", "Unaligned", "Undetermined_indices",
        "Sample_lane1", "lane1_Undetermined_L001_R1_001.fastq.gz"],
       ["/tmp", "130904_PJB_XXXXX", "Unaligned", "Undetermined_indices",
        "Sample_lane2"],
       ["/tmp", "130904_PJB_XXXXX", "Unaligned", "Undetermined_indices",
        "Sample_lane2", "lane2_Undetermined_L002_R1_001.fastq.gz"]] ∧
    exC3data.samples_in_project "Undetermined_indices" =
      some ["lane1", "lane2"] ∧
    exC3data.fastqs_in_sample "Undetermined_indices" "lane1" =
      some ["lane1_Undetermined_L001_R1_001.fastq.gz"] ∧
    exC3data.fastqs_in_sample "Undetermined_indices" "lane2" =
      some ["lane2_Undetermined_L002_R1_001.fastq.gz"] := by
  refine ⟨?_, by decide, by decide, by decide, by decide, by decide⟩
  intro st pd sd f hpkg hproj
  have hc1 : (st.__package == "casava") = true := by rw [hpkg]; rfl
  by_cases hU : pd = st.__undetermined_dir <;>
    simp [MockIlluminaData.createOps,
      MockIlluminaData.populate_casava_ops, hc1, hproj, hU]

theorem claim_C3_witness :
    ({ exDataCasavaSE with
        __projects := [("PJB", [("PJB1", ["a.fastq.gz"])])] } :
        MockIlluminaData).createOps =
      [FSOp.mkdir ({ exDataCasavaSE with
          __projects := [("PJB", [("PJB1", ["a.fastq.gz"])])] } :
          MockIlluminaData).dirn,
       FSOp.mkdir ({ exDataCasavaSE with
          __projects := [("PJB", [("PJB1", ["a.fastq.gz"])])] } :
          MockIlluminaData).unalignedPath,
       FSOp.mkdir (({ exDataCasavaSE with
          __projects := [("PJB", [("PJB1", ["a.fastq.gz"])])] } :
          MockIlluminaData).unalignedPath ++
        [if "PJB" = ({ exDataCasavaSE with
            __projects := [("PJB", [("PJB1", ["a.fastq.gz"])])] } :
            MockIlluminaData).__undetermined_dir then "PJB"
         else "Project_" ++ "PJB"]),
       FSOp.mkdir (({ exDataCasavaSE with
          __projects := [("PJB", [("PJB1", ["a.fastq.gz"])])] } :
          MockIlluminaData).unalignedPath ++
        [if "PJB" = ({ exDataCasavaSE with
            __projects := [("PJB", [("PJB1", ["a.fastq.gz"])])] } :
            MockIlluminaData).__undetermined_dir then "PJB"
         else "Project_" ++ "PJB", "Sample_" ++ "PJB1"]),
       FSOp.touch (({ exDataCasavaSE with
          __projects := [("PJB", [("PJB1", ["a.fastq.gz"])])] } :
          MockIlluminaData).unalignedPath ++
        [if "PJB" = ({ exDataCasavaSE with
            __projects := [("PJB", [("PJB1", ["a.fastq.gz"])])] } :
            MockIlluminaData).__undetermined_dir then "PJB"
         else "Project_" ++ "PJB", "Sample_" ++ "PJB1", "a.fastq.gz"])] :=
  claim_C3_casava_layout.1
    { exDataCasavaSE with __projects := [("PJB", [("PJB1", ["a.fastq.gz"])])] }
    "PJB" "PJB1" "a.fastq.gz" rfl rfl

/-- The C10 scenario: the same Legacy `add_undetermined(lanes=(1,2))`
tree, checked for the `Sample_` prefix inside the reserved project. -/
def exC10data : MockIlluminaData :=
  (exDataCasavaSE.add_undetermined (some [1, 2])).getD exDataCasavaSE

/-- C10: under the Legacy (casava) layout, sample directories inside the
reserved undetermined project are rendered with the same `Sample_`
prefix as ordinary samples: the materializer creates
`Sample_{sample}` under every project directory, and
`add_undetermined(lanes=(1,2))` followed by `create` materializes
`Unaligned/Undetermined_indices/Sample_lane1` and
`Unaligned/Undetermined_indices/Sample_lane2` — only the project-level
reserved name escapes prefixing, not the sample directories inside. -/
theorem claim_C10_undetermined_sample_dirs :
    (∀ (st : MockIlluminaData) (pr : String × List (String × List String))
      (sa : String × List String),
      pr ∈ st.__projects → sa ∈ pr.2 →
      FSOp.mkdir ((if pr.1 == st.__undetermined_dir then
          st.unalignedPath ++ [pr.1]
        else st.unalignedPath ++ ["Project_" ++ pr.1]) ++
        ["Sample_" ++ sa.1]) ∈ st.populate_casava_ops) ∧
    FSOp.mkdir ["/tmp", "130904_PJB_XXXXX", "Unaligned",
      "Undetermined_indices", "Sample_lane1"] ∈ exC10data.createOps ∧
    FSOp.mkdir ["/tmp", "130904_PJB_XXXXX", "Unaligned",
      "Undetermined_indices", "Sample_lane2"] ∈ exC10data.createOps ∧
    FSOp.mkdir ["/tmp", "130904_PJB_XXXXX", "Unaligned",
      "Undetermined_indices"] ∈ exC10data.createOps := by
  refine ⟨?_, by decide, by decide, by decide⟩
  intro st pr sa hpr hsa
  simp only [MockIlluminaData.populate_casava_ops, List.mem_flatMap]
  refine ⟨pr, hpr, ?_⟩
  simp only [List.mem_cons]
  right
  rw [List.mem_flatMap]
  exact ⟨sa, hsa, List.mem_cons_self _ _⟩

/-- A casava tree whose only project is the reserved undetermined one,
holding one sample. -/
def exC10wit : MockIlluminaData :=
  { exDataCasavaSE with
    __projects := [("Undetermined_indices", [("lane1", [])])] }

theorem claim_C10_witness :
    FSOp.mkdir ((if ("Undetermined_indices" : String) ==
        exC10wit.__undetermined_dir then
        exC10wit.unalignedPath ++ ["Undetermined_indices"]
      else exC10wit.unalignedPath ++
        ["Project_" ++ "Undetermined_indices"]) ++
      ["Sample_" ++ "lane1"]) ∈ exC10wit.populate_casava_ops := by
  exact claim_C10_undetermined_sample_dirs.1 exC10wit
    ("Undetermined_indices", [("lane1", [])]) ("lane1", [])
    (by decide) (by decide)

/-- A fresh casava tree for the C5 counterexample. -/
def exDataC5 : MockIlluminaData :=
  { __name := "140904_PJB_XXXXX", __package := "casava",
    __unaligned_dir := "Unaligned", __paired_end := false,
    __no_lane_splitting := false,
    __undetermined_dir := "Undetermined_indices", __top_dir := "/tmp",
    __projects := [], __created := false }

/-- C5 counterexample: `add_project("Project_Project_A_B")` stores the
key `"Project_A_B"`, which starts with `"Project_"`; removing only that
prefix would leave `"A_B"`, but the `projects` accessor computes
`name.split('_')[1]` and returns `"A"` — the remainder of the name is
not kept intact, so the claim fails on this stored name. -/
theorem claim_C5_counterexample :
    (exDataC5.add_project "Project_Project_A_B").__projects.map Prod.fst =
      ["Project_A_B"] ∧
    sStartsWith "Project_A_B" "Project_" = true ∧
    sDrop "Project_A_B" 8 = "A_B" ∧
    (exDataC5.add_project "Project_Project_A_B").projects = ["A"] ∧
    ¬ ((exDataC5.add_project "Project_Project_A_B").projects =
      [sDrop "Project_A_B" 8]) := by
  refine ⟨by decide, by decide, by decide, by decide, by decide⟩

/-- C5 (amended): the read accessors reflect the current in-memory tree
and return sorted name lists; a stored project/sample name that does not
start with `"Project_"`/`"Sample_"` is returned verbatim, while a stored
name that does start with the prefix is reduced to its first
underscore-delimited field after the prefix (`split('_')[1]`) — which
equals the prefix-stripped remainder exactly when that remainder
contains no further underscore; fastq lists are stored sorted by
`add_fastq`; and `create`/`remove` leave the in-memory tree untouched,
so the accessors always reflect the current state including edits made
after `create()`. -/
theorem claim_C5_read_accessors :
    (∀ st : MockIlluminaData, strSorted st.projects) ∧
    (∀ (st : MockIlluminaData) (pn : String) (l : List String),
      st.samples_in_project pn = some l → strSorted l) ∧
    (∀ (st : MockIlluminaData) (k : String),
      k ∈ st.__projects.map Prod.fst →
      sStartsWith k "Project_" = false → k ∈ st.projects) ∧
    (∀ (st : MockIlluminaData) (rr : String),
      ("Project_" ++ rr) ∈ st.__projects.map Prod.fst →
      rr.data.all (fun c => !(c == '_')) = true → rr ∈ st.projects) ∧
    (∀ (st : MockIlluminaData) (pn k : String)
      (samples : List (String × List String)),
      st.__projects.lookup (MockIlluminaData.projectDirName pn) =
        some samples →
      k ∈ samples.map Prod.fst → sStartsWith k "Sample_" = false →
      ∃ l, st.samples_in_project pn = some l ∧ k ∈ l) ∧
    (∀ (st : MockIlluminaData) (fs : FS),
      ((st.create fs).1).__projects = st.__projects ∧
      ((st.remove fs).1).__projects = st.__projects) ∧
    (∀ (st : MockIlluminaData) (P S f pd sd : String) (F : List String),
      MockIlluminaData.projectDirName P = pd →
      MockIlluminaData.sampleDirName S = sd →
      st.__projects = [(pd, [(sd, F)])] →
      (st.add_fastq P S f).fastqs_in_sample P S =
        some (sortStrs (F ++ [f])) ∧ strSorted (sortStrs (F ++ [f]))) := by
  refine ⟨?_, ?_, ?_, ?_, ?_, ?_, ?_⟩
  · intro st
    exact sortStrs_sorted _
  · intro st pn l h
    simp only [MockIlluminaData.samples_in_project, Option.map_eq_some'] at h
    obtain ⟨project, _, hl⟩ := h
    rw [← hl]
    exact sortStrs_sorted _
  · intro st k hk hbare
    rw [List.mem_map] at hk
    obtain ⟨pr, hpr, hfst⟩ := hk
    have hdisp : (if sStartsWith pr.1 "Project_" then secondField pr.1
        else pr.1) = k := by
      rw [hfst, hbare]
      simp
    refine (sortStrs_perm _).mem_iff.mpr ?_
    rw [List.mem_map]
    exact ⟨pr, hpr, hdisp⟩
  · intro st rr hmem hfree
    rw [List.mem_map] at hmem
    obtain ⟨pr, hpr, hfst⟩ := hmem
    have hProjFree : (("Project" : String).data).all
        (fun c => !(c == '_')) = true := by decide
    have hdata : ("Project_" ++ rr).data =
        ("Project" : String).data ++ '_' :: rr.data := by
      rw [String.data_append]
      rfl
    have hsf : secondField ("Project_" ++ rr) = rr := by
      have h2 := secondField_of_underscore_free ("Project" : String).data rr
        hProjFree hfree
      have harg : ("Project_" ++ rr) =
          (⟨("Project" : String).data ++ '_' :: rr.data⟩ : String) := by
        rw [← hdata]
      rw [harg]
      exact h2
    have hdisp : (if sStartsWith pr.1 "Project_" then secondField pr.1
        else pr.1) = rr := by
      rw [hfst, sStartsWith_append]
      simpa using hsf
    refine (sortStrs_perm _).mem_iff.mpr ?_
    rw [List.mem_map]
    exact ⟨pr, hpr, hdisp⟩
  · intro st pn k samples hlook hk hbare
    refine ⟨sortStrs (samples.map (fun sa =>
      if sStartsWith sa.1 "Sample_" then secondField sa.1 else sa.1)), ?_, ?_⟩
    · simp [MockIlluminaData.samples_in_project, hlook]
    · rw [List.mem_map] at hk
      obtain ⟨sa, hsa, hfst⟩ := hk
      refine (sortStrs_perm _).mem_iff.mpr ?_
      rw [List.mem_map]
      refine ⟨sa, hsa, ?_⟩
      rw [hfst, hbare]
      simp
  · intro st fs
    constructor
    · cases h : osExists fs st.dirn <;> simp [MockIlluminaData.create, h]
    · cases h : st.__created <;> simp [MockIlluminaData.remove, h]
  · intro st P S f pd sd F hP hS hshape
    have hstep := MockIlluminaData.add_fastq_single st P S f pd sd F hP hS
      hshape
    refine ⟨?_, sortStrs_sorted _⟩
    rw [hstep]
    simp [MockIlluminaData.fastqs_in_sample, hP, hS, List.lookup]

theorem claim_C5_witness :
    sStartsWith "PJB" "Project_" = false ∧
    "PJB" ∈ ({ exDataC5 with
      __projects := [("PJB", [("PJB1", [])])] } :
      MockIlluminaData).projects :=
  ⟨by decide, claim_C5_read_accessors.2.2.1
    { exDataC5 with __projects := [("PJB", [("PJB1", [])])] } "PJB"
    (by decide) (by decide)⟩

/-- C1 counterexample: the claim quantifies over every name pair, but
with `X := "Project_A"`, `Y := "B"` the call
`add_sample("Project_X","Sample_Y") = add_sample("Project_Project_A","Sample_B")`
stores the key `"Project_A"` (one prefix stripped), while the two calls
`add_sample("X","Y") = add_sample("Project_A","B")` strip again and
store the different key `"A"`: the tree ends with two project entries,
not one, and the prefixed and bare forms do not refer to the identical
entity. -/
theorem claim_C1_counterexample :
    ((((exDataCasavaSE.add_sample "Project_Project_A" "Sample_B").add_sample
        "Project_A" "B").add_sample "Project_A" "B").__projects.map
        Prod.fst = ["Project_A", "A"]) ∧
    ((((exDataCasavaSE.add_sample "Project_Project_A" "Sample_B").add_sample
        "Project_A" "B").add_sample "Project_A" "B").__projects.length ≠ 1) := by
  decide

/-- C1 (amended): for every name pair whose bare forms are canonical
(`X` does not itself start with `"Project_"` and `Y` does not start with
`"Sample_"`), the calls `add_sample("Project_X","Sample_Y")`,
`add_sample("X","Y")` and a further `add_sample("X","Y")` on an empty
tree yield exactly one project entry and one sample entry — the tree is
exactly `[(X, [(Y, [])])]` — so the prefixed and bare forms refer to the
identical entity. -/
theorem claim_C1_canonicalization (st : MockIlluminaData) (X Y : String)
    (hX : sStartsWith X "Project_" = false)
    (hY : sStartsWith Y "Sample_" = false)
    (h0 : st.__projects = []) :
    ((st.add_sample ("Project_" ++ X) ("Sample_" ++ Y)).add_sample X
        Y).add_sample X Y =
      { st with __projects := [(X, [(Y, [])])] } := by
  have h1 := st.add_sample_empty ("Project_" ++ X) ("Sample_" ++ Y) h0
  rw [MockIlluminaData.projectDirName_prepend,
    MockIlluminaData.sampleDirName_prepend] at h1
  have hPX := MockIlluminaData.projectDirName_of_bare X hX
  have hSY := MockIlluminaData.sampleDirName_of_bare Y hY
  have h2 := MockIlluminaData.add_sample_existing
    (st.add_sample ("Project_" ++ X) ("Sample_" ++ Y)) X Y X Y []
    hPX hSY (by rw [h1])
  rw [h2, h2, h1]

theorem claim_C1_witness :
    sStartsWith "X" "Project_" = false ∧ sStartsWith "Y" "Sample_" = false ∧
    ((exDataCasavaSE.add_sample ("Project_" ++ "X")
        ("Sample_" ++ "Y")).add_sample "X" "Y").add_sample "X" "Y" =
      { exDataCasavaSE with __projects := [("X", [("Y", [])])] } :=
  ⟨by decide, by decide,
    claim_C1_canonicalization exDataCasavaSE "X" "Y" (by decide) (by decide)
      rfl⟩

theorem claim_C7_witness :
    (((exRunMiseq.create []).1).remove (exRunMiseq.create []).2.1 =
      ({ exRunMiseq with _created := false }, []) ∧
    ∀ p ∈ ([] : FS), pathUnder exRunMiseq.dirn p = false) :=
  claim_C7_create_remove_roundtrip exRunMiseq (Or.inl rfl) [] rfl

end BcftbxMock
